import Mathlib

/-!
Shallow embedding of the GitRover AI-insight pipeline
(`src/services/aiService.ts` and the panel controller of
`src/components/AISidebarFeatures.tsx`), together with theorems settling
the specification claims about it.

JavaScript strings are modelled as Lean `String`; `string | null` as
`Option String`; `s.substring(0, n)` as taking the first `n` characters;
JS truthiness of strings (empty string and `null` are falsy) is modelled
explicitly.  A promise that either resolves or rejects is modelled by
`PromiseResult`.  The outcome of the one external call
(`ai.models.generateContent`) is an explicit parameter of each operation:
either a response object whose `text` field may be absent or empty, or a
thrown transport error carrying a message.
-/

namespace GitRover

/-- Substring test, modelling JavaScript `hay.includes(needle)` for the
non-empty needles used in `getFriendlyErrorMessage`. -/
def includes (hay needle : String) : Bool :=
  decide (needle.data <:+: hay.data)

/-- JS `a || b` for strings: `a` unless `a` is empty (falsy). -/
def jsOr (a b : String) : String :=
  if a = "" then b else a

/-- JS `a || b` where `a : string | null`. -/
def jsOrOpt (a : Option String) (b : String) : String :=
  match a with
  | none => b
  | some s => jsOr s b

/-- JS truthiness of a `string | null` value: `null` and `""` are falsy. -/
def truthyOpt : Option String → Bool
  | none => false
  | some s => decide (s ≠ "")

/-- Model of JS `s.substring(0, n)`: the first `n` characters of `s`. -/
def jsSubstring (s : String) (n : Nat) : String :=
  ⟨s.data.take n⟩

/-- Friendly message for quota / 429 errors (`getFriendlyErrorMessage`,
first branch). -/
def rateLimitedMsg : String :=
  "⚠️ **Brain Freeze:** The AI has reached its daily thinking limit. Please try again later or check your API quota."

/-- Friendly message for 503 / overload errors (second branch). -/
def overloadedMsg : String :=
  "😴 **AI is Nap-taking:** The model is currently overloaded with requests. Please try again in a few moments."

/-- Friendly message for API-key errors (third branch). -/
def invalidKeyMsg : String :=
  "🔑 **Key Issue:** The API key appears to be missing or invalid. Please check your settings."

/-- Friendly message for safety-filter errors (fourth branch). -/
def safetyMsg : String :=
  "🛡️ **Safety Shield:** The AI could not generate a response because the content triggered safety filters."

/-- Friendly catch-all message (final return of `getFriendlyErrorMessage`). -/
def unknownErrorMsg : String :=
  "🤖 **Hiccup:** The AI encountered an unexpected error. It might be a temporary glitch."

/-- Placeholder returned by `runPrompt` when the model produced no text. -/
def emptyTextPlaceholder : String :=
  "🤔 The AI thought about it but didn\x27t have anything to say. Try rephrasing your request."

/-- Embedding of `getFriendlyErrorMessage` (src/services/aiService.ts,
lines 10-30), applied to the error\x27s message string. -/
def getFriendlyErrorMessage (msg : String) : String :=
  if includes msg "429" || includes msg "Quota exceeded" then
    rateLimitedMsg
  else if includes msg "503" || includes msg "Overloaded" then
    overloadedMsg
  else if includes msg "API key not valid" || includes msg "API_KEY" then
    invalidKeyMsg
  else if includes msg "candidate" && includes msg "safety" then
    safetyMsg
  else
    unknownErrorMsg

/-- Result of a JS promise, as seen by the caller. -/
inductive PromiseResult (α : Type) where
  | resolved (a : α)
  | rejected (msg : String)
deriving DecidableEq, Repr

/-- Outcome of one `ai.models.generateContent` call: either a response
whose `text` field is possibly absent, or a thrown error with a message. -/
inductive ApiOutcome where
  | ok (text : Option String)
  | err (msg : String)
deriving DecidableEq, Repr

/-- The `thinkingConfig` request field. -/
structure ThinkingConfig where
  thinkingBudget : Nat
deriving DecidableEq, Repr

/-- The `config` object handed to `generateContent`. -/
structure GenerateConfig where
  thinkingConfig : Option ThinkingConfig
  responseMimeType : Option String
  responseSchemaRequired : List String
deriving DecidableEq, Repr

/-- A request to the generative-AI API: prompt plus configuration. -/
structure GenRequest where
  prompt : String
  config : GenerateConfig
deriving DecidableEq, Repr

/-- The configuration used by `runPrompt` (lines 42-47): a thinking budget
of 32768, no response mime type, no schema. -/
def runPromptConfig : GenerateConfig :=
  ⟨some ⟨32768⟩, none, []⟩

/-- The configuration used by `checkRepoHealth` (lines 140-156): JSON mime
type and a schema requiring `analysis` and `health_score`, and no
`thinkingConfig` field. -/
def checkRepoHealthConfig : GenerateConfig :=
  ⟨none, some "application/json", ["analysis", "health_score"]⟩

/-- Embedding of `runPrompt` (lines 37-59) applied to the outcome of its
single API call: an empty or absent `response.text` resolves with the
placeholder, a thrown error resolves with the friendly message, and
otherwise the text is resolved unchanged.  `runPrompt` never rejects. -/
def runPrompt (outcome : ApiOutcome) : PromiseResult String :=
  match outcome with
  | .ok none => .resolved emptyTextPlaceholder
  | .ok (some t) => if t = "" then .resolved emptyTextPlaceholder else .resolved t
  | .err m => .resolved (getFriendlyErrorMessage m)

/-- `RepoSummaryContext` (lines 61-67). -/
structure RepoSummaryContext where
  name : String
  description : String
  topics : List String
  primaryLanguage : String
  readme : Option String
deriving DecidableEq, Repr

/-- One entry of `RepoHealthContext.keyFiles`. -/
structure KeyFile where
  path : String
  content : String
deriving DecidableEq, Repr

/-- `RepoHealthContext` (lines 69-72). -/
structure RepoHealthContext where
  filePaths : List String
  keyFiles : List KeyFile
deriving DecidableEq, Repr

/-- One entry of `PRContext.files`. -/
structure PRFile where
  filename : String
  status : String
  additions : Nat
  deletions : Nat
deriving DecidableEq, Repr

/-- `PRContext` (lines 74-79). -/
structure PRContext where
  title : String
  body : String
  user : String
  files : List PRFile
deriving DecidableEq, Repr

/-- The interpolated README piece of the summary prompt:
`(context.readme || \x27\x27).substring(0, 8000)` (line 96). -/
def summaryReadmeSnippet (ctx : RepoSummaryContext) : String :=
  jsSubstring (jsOrOpt ctx.readme "") 8000

/-- The interpolated description field of the summary prompt:
`context.description || \x27N/A\x27` (line 90). -/
def summaryDescriptionField (ctx : RepoSummaryContext) : String :=
  jsOr ctx.description "N/A"

/-- The interpolated language field of the summary prompt (line 91). -/
def summaryLanguageField (ctx : RepoSummaryContext) : String :=
  jsOr ctx.primaryLanguage "N/A"

/-- The interpolated topics field of the summary prompt (line 92). -/
def summaryTopicsField (ctx : RepoSummaryContext) : String :=
  jsOr (String.intercalate ", " ctx.topics) "None"

/-- The template literal of `summarizeRepo` (lines 83-100), with each
`${...}` interpolation replaced by the corresponding field above. -/
def buildSummaryPrompt (ctx : RepoSummaryContext) : String :=
  "\n            You are an expert technical writer. Generate a concise, one-paragraph summary of the following GitHub repository.\n            \n            Use the metadata provided below to understand the project, even if the README is empty or missing.\n            \n            **Repository Metadata:**\n            - **Name:** "
    ++ ctx.name
    ++ "\n            - **Description:** "
    ++ summaryDescriptionField ctx
    ++ "\n            - **Primary Language:** "
    ++ summaryLanguageField ctx
    ++ "\n            - **Topics:** "
    ++ summaryTopicsField ctx
    ++ "\n            \n            **README Content Snippet:**\n            ---\n            "
    ++ summaryReadmeSnippet ctx
    ++ "\n            ---\n            \n            **Goal:** Focus on the main purpose, key features, and intended audience. Avoid jargon where possible. If the README is missing, rely on the description and topics.\n        "

/-- One key-file block of the health prompt: the inner template literal of
`context.keyFiles.map` (lines 105-109), with the content cut to its first
2000 characters. -/
def keyFileBlock (f : KeyFile) : String :=
  "\n<file path=\"" ++ f.path ++ "\">\n" ++ jsSubstring f.content 2000 ++ "\n</file>\n"

/-- The list of key-file blocks the health prompt is built from: one block
per entry of `context.keyFiles` (the `map` on line 105). -/
def healthKeyFileBlocks (ctx : RepoHealthContext) : List String :=
  ctx.keyFiles.map keyFileBlock

/-- `keyFilesSummary` (lines 105-109): the blocks joined with newlines, or
the fallback sentence when the join is empty. -/
def keyFilesSummary (ctx : RepoHealthContext) : String :=
  jsOr (String.intercalate "\n" (healthKeyFileBlocks ctx)) "No key files content provided."

/-- The file-path lines of the health prompt\x27s tree section:
`context.filePaths.slice(0, 100)` (line 121). -/
def healthTreeLines (ctx : RepoHealthContext) : List String :=
  ctx.filePaths.take 100

/-- The interpolated tree snippet of the health prompt:
`context.filePaths.slice(0, 100).join(\x27\n\x27)` (line 121). -/
def healthTreeSnippet (ctx : RepoHealthContext) : String :=
  String.intercalate "\n" (healthTreeLines ctx)

/-- The template literal of `checkRepoHealth` (lines 111-134). -/
def buildHealthPrompt (ctx : RepoHealthContext) : String :=
  "\n            Analyze the health of a GitHub repository based on its file structure and key file contents.\n            You must provide a detailed analysis and a numerical health score from 1 to 100.\n            \n            **Analysis Context:**\n            1.  **Full File List:** A tree of all file paths in the repository has been provided.\n            2.  **Key File Contents:** Content for important files like README, package.json, etc., is available.\n            \n            **File List Snippet (Top 100 files):**\n            <file_tree>\n            "
    ++ healthTreeSnippet ctx
    ++ "\n            </file_tree>\n\n            **Key File Contents:**\n            "
    ++ keyFilesSummary ctx
    ++ "\n\n            **Scoring Criteria:**\n            - **Documentation (40%):** Assess the presence and quality of README.md, CONTRIBUTING.md, and a LICENSE file. Good documentation is clear, comprehensive, and provides setup instructions.\n            - **Structure (30%):** Evaluate the logical organization of folders (e.g., separation of \x27src\x27, \x27tests\x27, \x27docs\x27). Does it follow common conventions for its ecosystem? A clean structure gets a higher score.\n            - **Dependencies (20%):** Look at dependency management files (like package.json, requirements.txt). Are dependencies reasonably up-to-date? Are there an excessive number of them? A well-managed project scores higher.\n            - **Testing (10%):** Check for the presence of a test suite (e.g., a \x27tests\x27 or \x27__tests__\x27 directory with test files). The presence of tests significantly boosts this part of the score.\n\n            Calculate a final \x27health_score\x27 (an integer between 1 and 100) based on these weighted criteria. Your \x27analysis\x27 should be a concise paragraph in markdown summarizing your findings.\n        "

/-- The template literal of `explainCode` (lines 171-182). -/
def buildExplainPrompt (codeSnippet : String) : String :=
  "\n            Explain the following code snippet in a clear and concise way. \n            Break down what the code does, its purpose, and any important concepts or syntax. \n            Format your response using markdown for readability.\n            \n            Code Snippet:\n            ---\n            ```\n            "
    ++ codeSnippet
    ++ "\n            ```\n            ---\n        "

/-- One line of the `fileList` of `reviewPullRequest` (line 187). -/
def prFileLine (f : PRFile) : String :=
  "- " ++ f.filename ++ " (" ++ f.status ++ ": +" ++ toString f.additions
    ++ ", -" ++ toString f.deletions ++ ")"

/-- `fileList` (line 187): the per-file lines joined with newlines. -/
def prFileList (ctx : PRContext) : String :=
  String.intercalate "\n" (ctx.files.map prFileLine)

/-- The interpolated body field of the PR prompt:
`context.body || \x27No description provided.\x27` (line 197). -/
def prBodyField (ctx : PRContext) : String :=
  jsOr ctx.body "No description provided."

/-- The template literal of `reviewPullRequest` (lines 189-208). -/
def buildPrReviewPrompt (ctx : PRContext) : String :=
  "\n            You are a Senior Software Engineer conducting a Pull Request review.\n            \n            Review the following Pull Request based on its description and the list of modified files.\n            \n            **PR Title:** "
    ++ ctx.title
    ++ "\n            **Author:** "
    ++ ctx.user
    ++ "\n            **Description:**\n            "
    ++ prBodyField ctx
    ++ "\n            \n            **Changed Files:**\n            "
    ++ prFileList ctx
    ++ "\n            \n            **Instructions:**\n            1. **Analyze Intent:** Based on the title and description, does the PR have a clear goal?\n            2. **Impact Assessment:** Based on the file list (size of changes, types of files), assess the risk and complexity.\n            3. **Recommendations:** Provide 3-4 bullet points on what a reviewer should look for specifically (e.g., \"Check for breaking changes in API\", \"Ensure CSS is scoped\").\n            \n            Keep the tone professional and constructive.\n        "

/-- The request `summarizeRepo` sends: its prompt under the `runPrompt`
configuration. -/
def summarizeRepoRequest (ctx : RepoSummaryContext) : GenRequest :=
  ⟨buildSummaryPrompt ctx, runPromptConfig⟩

/-- The request `explainCode` sends. -/
def explainCodeRequest (codeSnippet : String) : GenRequest :=
  ⟨buildExplainPrompt codeSnippet, runPromptConfig⟩

/-- The request `reviewPullRequest` sends. -/
def reviewPullRequestRequest (ctx : PRContext) : GenRequest :=
  ⟨buildPrReviewPrompt ctx, runPromptConfig⟩

/-- The request `checkRepoHealth` sends: its prompt under the JSON-schema
configuration (lines 137-157). -/
def checkRepoHealthRequest (ctx : RepoHealthContext) : GenRequest :=
  ⟨buildHealthPrompt ctx, checkRepoHealthConfig⟩

/-- Result behaviour of `aiService.summarizeRepo` (lines 82-102): it
delegates to `runPrompt`. -/
def summarizeRepo (_ctx : RepoSummaryContext) (outcome : ApiOutcome) : PromiseResult String :=
  runPrompt outcome

/-- Result behaviour of `aiService.explainCode` (lines 170-184). -/
def explainCode (_codeSnippet : String) (outcome : ApiOutcome) : PromiseResult String :=
  runPrompt outcome

/-- Result behaviour of `aiService.reviewPullRequest` (lines 186-210). -/
def reviewPullRequest (_ctx : PRContext) (outcome : ApiOutcome) : PromiseResult String :=
  runPrompt outcome

/-- Result behaviour of `aiService.checkRepoHealth` (lines 136-167) on the
outcome of its API call: an absent or empty `response.text` raises
`Error("The AI returned an empty response.")` inside the `try`, which the
`catch` rethrows as `Error(getFriendlyErrorMessage(error))`; a thrown
transport error is rethrown the same way; otherwise the raw JSON string
`response.text` is returned unparsed (line 162). -/
def checkRepoHealth (_ctx : RepoHealthContext) (outcome : ApiOutcome) : PromiseResult String :=
  match outcome with
  | .ok none => .rejected (getFriendlyErrorMessage "The AI returned an empty response.")
  | .ok (some t) =>
      if t = "" then .rejected (getFriendlyErrorMessage "The AI returned an empty response.")
      else .resolved t
  | .err m => .rejected (getFriendlyErrorMessage m)

/-- The slice of the `Repo` value that `AISidebarFeatures` reads:
`repo.name`, `repo.description`, `repo.topics`, `repo.language` (nullable
fields as `Option`). -/
structure RepoInfo where
  name : String
  description : Option String
  topics : Option (List String)
  language : Option String
deriving DecidableEq, Repr

/-- The state variables of `AISidebarFeatures` (lines 92-102). -/
structure SidebarState where
  summary : Option String
  isSummaryLoading : Bool
  summaryError : Option String
  isSummaryOpen : Bool
  healthResult : Option String
  isHealthLoading : Bool
  healthError : Option String
  isHealthOpen : Bool
deriving DecidableEq, Repr

/-- The state in which `AISidebarFeatures` mounts: every result and error
`null`, nothing loading, both panels collapsed. -/
def initialSidebarState : SidebarState :=
  ⟨none, false, none, false, none, false, none, false⟩

/-- The value `toggleHealth` passes to `aiService.checkRepoHealth`.  The
service parameter is declared as `RepoHealthContext`, but the component
(line 147) passes `readmeContent`, a raw string, so both shapes must be
representable. -/
inductive HealthArg where
  | ctx (c : RepoHealthContext)
  | str (s : String)
deriving DecidableEq, Repr

/-- JS property access `context.keyFiles` on the argument: a string value
has no `keyFiles` property, so the access yields `undefined`. -/
def keyFilesProp : HealthArg → Option (List KeyFile)
  | .ctx c => some c.keyFiles
  | .str _ => none

/-- Dynamic evaluation of `context.keyFiles.map(...).join(...) || ...`
(lines 105-109): calling `.map` on `undefined` throws a `TypeError`; on a
proper context it builds `keyFilesSummary`.  The expression runs before
the `try` block of `checkRepoHealth`, so the `TypeError` is not rerouted
through `getFriendlyErrorMessage`. -/
def keyFilesSummaryDyn (a : HealthArg) : Except String String :=
  match keyFilesProp a with
  | none => .error "TypeError: Cannot read properties of undefined (reading \x27map\x27)"
  | some ks =>
      .ok (jsOr (String.intercalate "\n" (ks.map keyFileBlock)) "No key files content provided.")

/-- Embedding of `toggleSummary` (lines 104-132).  Returns the updated
state together with the `RepoSummaryContext` of the dispatched
`summarizeRepo` call, or `none` when no request is issued. -/
def toggleSummary (repo : RepoInfo) (readmeContent : Option String) (s : SidebarState) :
    SidebarState × Option RepoSummaryContext :=
  if !s.isSummaryOpen then
    let s1 := { s with isSummaryOpen := true, isHealthOpen := false }
    if !truthyOpt s1.summary && !s1.isSummaryLoading then
      if !truthyOpt readmeContent && !truthyOpt repo.description then
        ({ s1 with summaryError := some "Not enough info to generate summary." }, none)
      else
        ({ s1 with isSummaryLoading := true, summaryError := none },
          some ⟨repo.name, jsOrOpt repo.description "", (repo.topics).getD [],
            jsOrOpt repo.language "", readmeContent⟩)
    else
      (s1, none)
  else
    ({ s with isSummaryOpen := false }, none)

/-- Embedding of `toggleHealth` (lines 134-155).  Returns the updated
state together with the argument of the dispatched `checkRepoHealth`
call — the raw README string (line 147) — or `none` when no request is
issued. -/
def toggleHealth (readmeContent : Option String) (s : SidebarState) :
    SidebarState × Option HealthArg :=
  if !s.isHealthOpen then
    let s1 := { s with isHealthOpen := true, isSummaryOpen := false }
    if !truthyOpt s1.healthResult && !s1.isHealthLoading then
      if !truthyOpt readmeContent then
        ({ s1 with healthError := some "No README content available." }, none)
      else
        ({ s1 with isHealthLoading := true, healthError := none },
          some (.str (jsOrOpt readmeContent "")))
    else
      (s1, none)
  else
    ({ s with isHealthOpen := false }, none)

/-- The `.then(setSummary)` / `.finally` transition of a dispatched
summary request (lines 125-127). -/
def summaryFulfilled (s : SidebarState) (result : String) : SidebarState :=
  { s with summary := some result, isSummaryLoading := false }

/-- The `.catch` / `.finally` transition of a dispatched summary request
(lines 126-127): the rejection message, or the fallback when it is
falsy. -/
def summaryRejectedStep (s : SidebarState) (msg : String) : SidebarState :=
  { s with summaryError := some (jsOr msg "Failed to generate summary."), isSummaryLoading := false }

/-- The `.then(setHealthResult)` / `.finally` transition of a dispatched
health request (lines 148-150). -/
def healthFulfilled (s : SidebarState) (result : String) : SidebarState :=
  { s with healthResult := some result, isHealthLoading := false }

/-- The `.catch` / `.finally` transition of a dispatched health request
(lines 149-150). -/
def healthRejectedStep (s : SidebarState) (msg : String) : SidebarState :=
  { s with healthError := some (jsOr msg "Failed to check health."), isHealthLoading := false }

/-- Helper: a string append whose left part is non-empty is non-empty. -/
theorem append_ne_empty (a b : String) (h : a ≠ "") : a ++ b ≠ "" := by
  intro hab
  apply h
  have hd := congrArg String.data hab
  rw [String.data_append] at hd
  rcases List.append_eq_nil.mp hd with ⟨ha, _⟩
  cases a
  simp at ha
  simp [ha]

/-- C1, counterexample.  The claim says `checkRepoHealth` validates the
parsed JSON and rejects with a parse error on the out-of-range response
`\x7b"analysis":"ok","health_score":150\x7d`.  In fact the operation
resolves, returning that raw string unparsed. -/
theorem claim1_counterexample_out_of_range_score_resolves :
    checkRepoHealth ⟨[], []⟩ (.ok (some "\x7b\"analysis\":\"ok\",\"health_score\":150\x7d")) =
      .resolved "\x7b\"analysis\":\"ok\",\"health_score\":150\x7d" := by
  decide

/-- C1, amended.  `checkRepoHealth` performs no JSON parsing and no field
or range validation: for every context and every non-empty model response
text it resolves with exactly the raw response string — including the
valid 42-score response, which is returned as a string, not as a parsed
object. -/
theorem claim1_amended_raw_json_passthrough (ctx : RepoHealthContext) (t : String)
    (h : t ≠ "") :
    checkRepoHealth ctx (.ok (some t)) = .resolved t := by
  simp [checkRepoHealth, h]

/-- Witness for C1\x27s amended theorem at the valid 42-score response. -/
theorem claim1_amended_raw_json_passthrough_witness :
    checkRepoHealth ⟨[], []⟩ (.ok (some "\x7b\"analysis\":\"ok\",\"health_score\":42\x7d")) =
      .resolved "\x7b\"analysis\":\"ok\",\"health_score\":42\x7d" :=
  claim1_amended_raw_json_passthrough ⟨[], []⟩ _ (by decide)

/-- C2, code bug.  The claim describes a gatherer that fetches the file
tree and key-file contents with all-settled semantics, but the health
panel (`toggleHealth`, line 147) passes the raw README string where
`checkRepoHealth` declares a `RepoHealthContext`: on expansion the
dispatched argument is the string itself, and evaluating
`context.keyFiles.map` on it throws a `TypeError` — no tree fetch and no
key-file fetches ever happen. -/
theorem claim2_code_bug_readme_string_passed_to_health :
    (toggleHealth (some "# GitRover") initialSidebarState).2 = some (.str "# GitRover") ∧
    keyFilesSummaryDyn (.str "# GitRover") =
      .error "TypeError: Cannot read properties of undefined (reading \x27map\x27)" :=
  ⟨rfl, rfl⟩

/-- C3, counterexample.  The claim says every failing insight operation
rejects with a classified error.  `summarizeRepo` on a 429 transport
failure instead resolves (with the classified rate-limit message) — the
promise never rejects. -/
theorem claim3_counterexample_transport_error_resolves :
    summarizeRepo ⟨"repo", "", [], "", none⟩ (.err "got 429 from upstream") =
      .resolved rateLimitedMsg := by
  decide

/-- C3, amended.  On any transport error, the three free-text operations
resolve with the classified friendly message while `checkRepoHealth`
rejects with it; in every case the message is one of the five messages of
the closed taxonomy, never the raw transport error. -/
theorem claim3_amended_classified_errors (sctx : RepoSummaryContext) (snippet : String)
    (pctx : PRContext) (hctx : RepoHealthContext) (e : String) :
    summarizeRepo sctx (.err e) = .resolved (getFriendlyErrorMessage e) ∧
    explainCode snippet (.err e) = .resolved (getFriendlyErrorMessage e) ∧
    reviewPullRequest pctx (.err e) = .resolved (getFriendlyErrorMessage e) ∧
    checkRepoHealth hctx (.err e) = .rejected (getFriendlyErrorMessage e) ∧
    (getFriendlyErrorMessage e = rateLimitedMsg ∨ getFriendlyErrorMessage e = overloadedMsg ∨
      getFriendlyErrorMessage e = invalidKeyMsg ∨ getFriendlyErrorMessage e = safetyMsg ∨
      getFriendlyErrorMessage e = unknownErrorMsg) := by
  refine ⟨rfl, rfl, rfl, rfl, ?_⟩
  unfold getFriendlyErrorMessage
  split
  · tauto
  · split
    · tauto
    · split
      · tauto
      · split <;> tauto

/-- C4, counterexample.  The claim says every insight call sets
`thinkingBudget` to 32768, but the health request\x27s configuration
carries no `thinkingConfig` at all. -/
theorem claim4_counterexample_health_call_has_no_thinking_budget :
    (checkRepoHealthRequest ⟨[], []⟩).config.thinkingConfig ≠ some ⟨32768⟩ := by
  decide

/-- C4, amended.  The three free-text requests set
`thinkingBudget = 32768`; the schema-constrained health request sets no
`thinkingConfig`. -/
theorem claim4_amended_thinking_budget_only_freetext (sctx : RepoSummaryContext)
    (snippet : String) (pctx : PRContext) (hctx : RepoHealthContext) :
    (summarizeRepoRequest sctx).config.thinkingConfig = some ⟨32768⟩ ∧
    (explainCodeRequest snippet).config.thinkingConfig = some ⟨32768⟩ ∧
    (reviewPullRequestRequest pctx).config.thinkingConfig = some ⟨32768⟩ ∧
    (checkRepoHealthRequest hctx).config.thinkingConfig = none :=
  ⟨rfl, rfl, rfl, rfl⟩

/-- C5, counterexample.  The claim says an empty structured result is
surfaced as the `EmptyResponse` category.  In fact the internal
empty-response error is rerouted through `getFriendlyErrorMessage`, which
maps it to the generic catch-all message — the caller sees exactly the
same rejection as for an entirely unclassifiable transport error, so no
distinct `EmptyResponse` category reaches the caller. -/
theorem claim5_counterexample_empty_structured_response_surfaces_generic :
    checkRepoHealth ⟨[], []⟩ (.ok (some "")) = .rejected unknownErrorMsg ∧
    checkRepoHealth ⟨[], []⟩ (.err "an entirely unprecedented failure") =
      .rejected unknownErrorMsg := by
  decide

/-- C5, amended.  Empty model text is a soft failure in free-text mode —
`runPrompt` resolves with the friendly placeholder — and a hard failure
for the structured health call, which rejects; but the rejection carries
the generic catch-all message, not a distinct empty-response category. -/
theorem claim5_amended_empty_text_handling (hctx : RepoHealthContext) :
    runPrompt (.ok none) = .resolved emptyTextPlaceholder ∧
    runPrompt (.ok (some "")) = .resolved emptyTextPlaceholder ∧
    checkRepoHealth hctx (.ok none) = .rejected unknownErrorMsg ∧
    checkRepoHealth hctx (.ok (some "")) = .rejected unknownErrorMsg := by
  have h : getFriendlyErrorMessage "The AI returned an empty response." = unknownErrorMsg := by
    decide
  refine ⟨rfl, rfl, ?_, ?_⟩ <;> simp [checkRepoHealth, h]

/-- C6, counterexample.  The claim says the health prompt contains at most
5 key-file blocks for every `RepoHealthContext`; the builder emits one
block per entry of `keyFiles` with no cap, so a context with six key
files yields six blocks. -/
theorem claim6_counterexample_six_key_file_blocks :
    ¬ ((healthKeyFileBlocks
        ⟨[], [⟨"a", ""⟩, ⟨"b", ""⟩, ⟨"c", ""⟩, ⟨"d", ""⟩, ⟨"e", ""⟩, ⟨"f", ""⟩]⟩).length ≤ 5) := by
  decide

/-- C6, amended.  The health prompt\x27s tree section has
`min 100 |filePaths|` lines (hence at most 100, and exactly 100 for 500
paths), each key-file block embeds at most the first 2000 characters of
its content, but the number of blocks equals the number of key files in
the context — the 5-block cap of the claim is not enforced by the
builder. -/
theorem claim6_amended_prompt_bounds (ctx : RepoHealthContext) :
    (healthTreeLines ctx).length = min 100 ctx.filePaths.length ∧
    (healthTreeLines ctx).length ≤ 100 ∧
    (healthKeyFileBlocks ctx).length = ctx.keyFiles.length ∧
    ∀ f ∈ ctx.keyFiles, (jsSubstring f.content 2000).length ≤ 2000 := by
  refine ⟨by simp [healthTreeLines], ?_, by simp [healthKeyFileBlocks], ?_⟩
  · rw [healthTreeLines, List.length_take]
    omega
  · intro f _
    have h : (jsSubstring f.content 2000).length = (f.content.data.take 2000).length := rfl
    rw [h, List.length_take]
    omega

/-- Witness for C6\x27s amended theorem: 500 paths give exactly 100 tree
lines, and a 5000-character key file is cut to at most 2000 characters. -/
theorem claim6_amended_prompt_bounds_witness :
    (healthTreeLines ⟨List.replicate 500 "p", [⟨"README.md", ⟨List.replicate 5000 'x'⟩⟩]⟩).length = 100 ∧
    (jsSubstring (⟨List.replicate 5000 'x'⟩ : String) 2000).length ≤ 2000 := by
  have h := claim6_amended_prompt_bounds
    ⟨List.replicate 500 "p", [⟨"README.md", ⟨List.replicate 5000 'x'⟩⟩]⟩
  refine ⟨?_, ?_⟩
  · rw [h.1]
    rw [show (⟨List.replicate 500 "p", [⟨"README.md", ⟨List.replicate 5000 'x'⟩⟩]⟩ :
      RepoHealthContext).filePaths = List.replicate 500 "p" from rfl, List.length_replicate]
    decide
  · exact h.2.2.2 ⟨"README.md", ⟨List.replicate 5000 'x'⟩⟩ (by simp)

/-- C7, counterexample.  The claim says the summary prompt never contains
an empty interpolation for a missing field; but for a context with no
README the interpolated README piece is the empty string — no absence
marker is substituted between the `---` fences. -/
theorem claim7_counterexample_empty_readme_interpolation :
    summaryReadmeSnippet ⟨"GitRover", "", [], "", none⟩ = "" := by
  decide

/-- C7, amended.  The summary prompt embeds at most the first 8000
characters of the README; with no README and no description it is still
non-empty and the description field carries the explicit `N/A` marker,
but the README field itself is interpolated as the empty string rather
than a marker. -/
theorem claim7_amended_summary_prompt_markers (ctx : RepoSummaryContext) :
    (summaryReadmeSnippet ctx).length ≤ 8000 ∧
    (ctx.readme = none → ctx.description = "" →
      summaryDescriptionField ctx = "N/A" ∧
      summaryReadmeSnippet ctx = "" ∧
      buildSummaryPrompt ctx ≠ "") := by
  constructor
  · have h : (summaryReadmeSnippet ctx).length = ((jsOrOpt ctx.readme "").data.take 8000).length :=
      rfl
    rw [h, List.length_take]
    omega
  · intro hr hd
    refine ⟨?_, ?_, ?_⟩
    · simp [summaryDescriptionField, hd, jsOr]
    · simp [summaryReadmeSnippet, hr, jsOrOpt, jsSubstring]
    · unfold buildSummaryPrompt
      repeat apply append_ne_empty
      decide

/-- Witness for C7\x27s amended theorem at a context with no README and no
description. -/
theorem claim7_amended_summary_prompt_markers_witness :
    (summaryReadmeSnippet ⟨"GitRover", "", ["github", "ai"], "TypeScript", none⟩).length ≤ 8000 ∧
    summaryDescriptionField ⟨"GitRover", "", ["github", "ai"], "TypeScript", none⟩ = "N/A" ∧
    summaryReadmeSnippet ⟨"GitRover", "", ["github", "ai"], "TypeScript", none⟩ = "" ∧
    buildSummaryPrompt ⟨"GitRover", "", ["github", "ai"], "TypeScript", none⟩ ≠ "" := by
  have h := claim7_amended_summary_prompt_markers ⟨"GitRover", "", ["github", "ai"], "TypeScript", none⟩
  exact ⟨h.1, (h.2 rfl rfl).1, (h.2 rfl rfl).2.1, (h.2 rfl rfl).2.2⟩

/-- C8, confirmed.  Any transport error whose message contains "429"
makes the model invocation resolve with the rate-limit message (never an
unclassified throw), and an error matching none of the known patterns
resolves with the generic catch-all message. -/
theorem claim8_error_classification (msg : String) :
    (includes msg "429" = true → runPrompt (.err msg) = .resolved rateLimitedMsg) ∧
    (includes msg "429" = false → includes msg "Quota exceeded" = false →
      includes msg "503" = false → includes msg "Overloaded" = false →
      includes msg "API key not valid" = false → includes msg "API_KEY" = false →
      (includes msg "candidate" && includes msg "safety") = false →
      runPrompt (.err msg) = .resolved unknownErrorMsg) := by
  constructor
  · intro h
    simp [runPrompt, getFriendlyErrorMessage, h]
  · intro h1 h2 h3 h4 h5 h6 h7
    simp [runPrompt, getFriendlyErrorMessage, h1, h2, h3, h4, h5, h6, h7]

/-- Witness for C8 at a 429 error and at an unclassifiable error. -/
theorem claim8_error_classification_witness :
    runPrompt (.err "Request failed with status 429") = .resolved rateLimitedMsg ∧
    runPrompt (.err "mysterious glitch") = .resolved unknownErrorMsg := by
  exact ⟨(claim8_error_classification "Request failed with status 429").1 (by decide),
    (claim8_error_classification "mysterious glitch").2 (by decide) (by decide) (by decide)
      (by decide) (by decide) (by decide) (by decide)⟩

/-- C9, counterexample.  The claim says re-expanding a panel that reached
`Failed` does not re-issue the request.  After a dispatched summary
request rejects (error stored, not loading, no result), collapsing and
re-expanding the panel dispatches a second request. -/
theorem claim9_counterexample_failed_panel_refetches :
    let repoEx : RepoInfo := ⟨"r", some "d", none, none⟩
    let readmeEx : Option String := some "# R"
    let afterFail := summaryRejectedStep (toggleSummary repoEx readmeEx initialSidebarState).1 "boom"
    let collapsed := (toggleSummary repoEx readmeEx afterFail).1
    afterFail.summaryError = some "boom" ∧ afterFail.isSummaryLoading = false ∧
      afterFail.summary = none ∧
      (toggleSummary repoEx readmeEx collapsed).2.isSome = true := by
  decide

/-- C9, amended.  Single-flight holds: expanding either panel while its
request is loading dispatches nothing, and a panel whose result is cached
(`Ready`) never re-issues the request and keeps its result; but a
`Failed` panel (null result, not loading) does re-issue on the next
expansion. -/
theorem claim9_amended_single_flight_and_ready_cache (repo : RepoInfo)
    (readme : Option String) (s : SidebarState) :
    (s.isSummaryLoading = true → (toggleSummary repo readme s).2 = none) ∧
    (truthyOpt s.summary = true →
      (toggleSummary repo readme s).2 = none ∧
      (toggleSummary repo readme s).1.summary = s.summary) ∧
    (s.isHealthLoading = true → (toggleHealth readme s).2 = none) ∧
    (truthyOpt s.healthResult = true →
      (toggleHealth readme s).2 = none ∧
      (toggleHealth readme s).1.healthResult = s.healthResult) := by
  refine ⟨?_, ?_, ?_, ?_⟩
  · intro h
    by_cases ho : s.isSummaryOpen <;> simp [toggleSummary, ho, h]
  · intro h
    by_cases ho : s.isSummaryOpen <;> simp [toggleSummary, ho, h]
  · intro h
    by_cases ho : s.isHealthOpen <;> simp [toggleHealth, ho, h]
  · intro h
    by_cases ho : s.isHealthOpen <;> simp [toggleHealth, ho, h]

/-- Witness for C9\x27s amended theorem: a loading summary panel and a
`Ready` health panel dispatch nothing on expansion. -/
theorem claim9_amended_single_flight_and_ready_cache_witness :
    (toggleSummary ⟨"r", none, none, none⟩ (some "# R")
      ⟨none, true, none, false, none, true, none, false⟩).2 = none ∧
    (toggleHealth (some "# R")
      ⟨some "s", false, none, false, some "h", false, none, false⟩).2 = none := by
  exact ⟨(claim9_amended_single_flight_and_ready_cache ⟨"r", none, none, none⟩ (some "# R")
      ⟨none, true, none, false, none, true, none, false⟩).1 rfl,
    ((claim9_amended_single_flight_and_ready_cache ⟨"r", none, none, none⟩ (some "# R")
      ⟨some "s", false, none, false, some "h", false, none, false⟩).2.2.2 (by decide)).1⟩

/-- C10, confirmed.  From an idle panel, expanding the summary panel with
no README content and no description stores exactly the fixed message
"Not enough info to generate summary." and dispatches nothing; expanding
the health panel with no README content stores exactly "No README content
available." and dispatches nothing. -/
theorem claim10_precondition_guards (repo : RepoInfo) (readme : Option String)
    (s : SidebarState) :
    (s.isSummaryOpen = false → truthyOpt s.summary = false → s.isSummaryLoading = false →
      truthyOpt readme = false → truthyOpt repo.description = false →
      toggleSummary repo readme s =
        ({ s with isSummaryOpen := true, isHealthOpen := false, summaryError := some "Not enough info to generate summary." }, none)) ∧
    (s.isHealthOpen = false → truthyOpt s.healthResult = false → s.isHealthLoading = false →
      truthyOpt readme = false →
      toggleHealth readme s =
        ({ s with isHealthOpen := true, isSummaryOpen := false, healthError := some "No README content available." }, none)) := by
  constructor
  · intro h1 h2 h3 h4 h5
    simp [toggleSummary, h1, h2, h3, h4, h5]
  · intro h1 h2 h3 h4
    simp [toggleHealth, h1, h2, h3, h4]

/-- Witness for C10 at the mount state of a repository with neither
README nor description. -/
theorem claim10_precondition_guards_witness :
    toggleSummary ⟨"r", none, none, none⟩ none initialSidebarState =
      ({ initialSidebarState with isSummaryOpen := true, isHealthOpen := false, summaryError := some "Not enough info to generate summary." }, none) ∧
    toggleHealth none initialSidebarState =
      ({ initialSidebarState with isHealthOpen := true, isSummaryOpen := false, healthError := some "No README content available." }, none) := by
  exact ⟨(claim10_precondition_guards ⟨"r", none, none, none⟩ none initialSidebarState).1
      rfl rfl rfl rfl rfl,
    (claim10_precondition_guards ⟨"r", none, none, none⟩ none initialSidebarState).2
      rfl rfl rfl rfl⟩

end GitRover
